import Mathlib

/-!
Verification of the ensemble sentiment-aggregation logic of the
`workflow_sentiment` repository, shallowly embedded in Lean 4.

The embedding follows `src/advanced_sentiment_analysis.py` (class
`AdvancedSentimentAnalyzer`), `src/multi_model_sentiment.py` (class
`MultiModelSentimentAnalyzer`) and `src/sentiment_gui.py` (class
`SentimentAnalyzer`).  External classifiers (the transformer pipeline,
VADER's `polarity_scores` and TextBlob's `sentiment.polarity`) are pure
third-party calls; each is modelled by a parameter holding the value the
external library returned, with `none` standing for a raised exception
(every call site wraps these calls in `try`/`except`).  Python floats are
modelled as exact rationals.
-/

/-- Sentiment label: the three strings `'Positive'`, `'Negative'`,
`'Neutral'` used throughout the Python sources. -/
inductive Label where
  | Positive
  | Negative
  | Neutral
deriving DecidableEq, Repr

/-- One classifier's output: the `(sentiment, confidence, method)` triple
returned by each `*_analysis` method. -/
structure Judgment where
  label : Label
  confidence : ℚ
  source : String
deriving DecidableEq, Repr

/-- The `customer_service_positive` word set of
`AdvancedSentimentAnalyzer.__init__`. -/
def customer_service_positive : List String :=
  ["professional", "helpful", "courteous", "patient", "knowledgeable",
   "efficient", "quick", "responsive", "thorough", "excellent",
   "resolved", "solved", "fixed", "helped", "assisted", "guided",
   "explained", "clarified", "understood", "satisfied",
   "thank", "appreciate", "grateful", "pleased", "happy",
   "recommend", "impressed", "outstanding", "amazing", "perfect"]

/-- The `customer_service_negative` word set of
`AdvancedSentimentAnalyzer.__init__`. -/
def customer_service_negative : List String :=
  ["unprofessional", "rude", "impatient", "unhelpful", "slow",
   "confusing", "unclear", "difficult", "complicated", "frustrated",
   "unresolved", "unsolved", "failed", "unable", "refused",
   "ignored", "dismissed", "hung up", "transferred", "waiting",
   "disappointed", "angry", "upset", "annoyed", "complain",
   "terrible", "awful", "worst", "horrible", "disgusted"]

/-- Helper for `pySplit`: scan a character list, accumulating the current
word (reversed) and emitting words at whitespace boundaries, as Python's
`str.split()` with no separator does. -/
def splitWords : List Char → List Char → List String
  | [], acc => if acc.isEmpty then [] else [String.mk acc.reverse]
  | c :: cs, acc =>
    if c.isWhitespace then
      (if acc.isEmpty then [] else [String.mk acc.reverse]) ++ splitWords cs []
    else
      splitWords cs (c :: acc)

/-- Python's `str.split()` (no argument): split on runs of whitespace,
discarding empty fragments. -/
def pySplit (s : String) : List String :=
  splitWords s.data []

/-- Python's `str.lower()` (ASCII case folding). -/
def pyLower (s : String) : String :=
  String.mk (s.data.map Char.toLower)

/-- Python's `str.upper()` (ASCII case folding). -/
def pyUpper (s : String) : String :=
  String.mk (s.data.map Char.toUpper)

/-- Python's `str.strip()` with no argument: drop leading and trailing
whitespace. -/
def pyStrip (s : String) : String :=
  String.mk (((s.data.dropWhile Char.isWhitespace).reverse.dropWhile
      Char.isWhitespace).reverse)

/-- Helper for `strContains`: does `needle` occur as a contiguous
sublist of the first argument? -/
def containsAux (needle : List Char) : List Char → Bool
  | [] => needle.isEmpty
  | c :: cs => needle.isPrefixOf (c :: cs) || containsAux needle cs

/-- Python's `needle in hay` substring test on strings. -/
def strContains (hay needle : String) : Bool :=
  containsAux needle.data hay.data

/-- `AdvancedSentimentAnalyzer.advanced_analysis` (lines 98-126).
Returns `None` when `use_advanced` is off; otherwise the transformer
pipeline either raises (modelled `tres = none`, caught by the
`except` clause, returning `None`) or yields a raw `(label, score)`
pair that is upper-cased and mapped onto the three labels. -/
def advanced_analysis (use_advanced : Bool) (tres : Option (String × ℚ)) :
    Option Judgment :=
  if use_advanced = false then none
  else
    match tres with
    | none => none
    | some (lab, score) =>
      if strContains (pyUpper lab) "POS" then
        some ⟨Label.Positive, score, "transformer"⟩
      else if strContains (pyUpper lab) "NEG" then
        some ⟨Label.Negative, score, "transformer"⟩
      else
        some ⟨Label.Neutral, score, "transformer"⟩

/-- `AdvancedSentimentAnalyzer.vader_analysis` (lines 128-143).
`compound` is the VADER compound score; `none` models a raised
exception (the `except` clause returns `None`). -/
def vader_analysis (compound : Option ℚ) : Option Judgment :=
  match compound with
  | none => none
  | some c =>
    if 1/20 ≤ c then some ⟨Label.Positive, |c|, "vader"⟩
    else if c ≤ -(1/20) then some ⟨Label.Negative, |c|, "vader"⟩
    else some ⟨Label.Neutral, 1 - |c|, "vader"⟩

/-- `AdvancedSentimentAnalyzer.textblob_analysis` (lines 145-159).
`pol` is TextBlob's polarity; `none` models a raised exception, which
the `except` clause converts to `('Neutral', 0.5, 'textblob')`. -/
def textblob_analysis (pol : Option ℚ) : Judgment :=
  match pol with
  | none => ⟨Label.Neutral, 1/2, "textblob"⟩
  | some polarity =>
    if 1/10 < polarity then ⟨Label.Positive, polarity, "textblob"⟩
    else if polarity < -(1/10) then ⟨Label.Negative, |polarity|, "textblob"⟩
    else ⟨Label.Neutral, |polarity|, "textblob"⟩

/-- The lower-cased, whitespace-split word list of
`domain_specific_analysis` (line 163). -/
def domainWords (text : String) : List String :=
  pySplit (pyLower text)

/-- The `pos_count` local of `domain_specific_analysis` (line 165). -/
def domainPosCount (text : String) : ℕ :=
  ((domainWords text).filter (fun w => customer_service_positive.contains w)).length

/-- The `neg_count` local of `domain_specific_analysis` (line 166). -/
def domainNegCount (text : String) : ℕ :=
  ((domainWords text).filter (fun w => customer_service_negative.contains w)).length

/-- `AdvancedSentimentAnalyzer.domain_specific_analysis` (lines 161-180):
count lexicon hits among the lower-cased, whitespace-split words. -/
def domain_specific_analysis (text : String) : Judgment :=
  if domainPosCount text + domainNegCount text = 0 then
    ⟨Label.Neutral, 1/2, "domain"⟩
  else if domainNegCount text < domainPosCount text then
    ⟨Label.Positive,
      (domainPosCount text : ℚ) / ((domainPosCount text : ℚ) + (domainNegCount text : ℚ)),
      "domain"⟩
  else if domainPosCount text < domainNegCount text then
    ⟨Label.Negative,
      (domainNegCount text : ℚ) / ((domainPosCount text : ℚ) + (domainNegCount text : ℚ)),
      "domain"⟩
  else ⟨Label.Neutral, 1/2, "domain"⟩

/-- A Python `if result:` guard on an optional judgment: a present
judgment is appended to the list, an absent one contributes nothing. -/
def optToList : Option Judgment → List Judgment
  | none => []
  | some j => [j]

/-- The `results` list built in `ensemble_analysis` lines 187-211:
the transformer judgment (when `use_advanced` and the call succeeded),
then the VADER judgment (when the call succeeded), then always the
domain judgment and the TextBlob judgment. -/
def collectResults (use_advanced : Bool) (tres : Option (String × ℚ))
    (compound : Option ℚ) (text : String) (pol : Option ℚ) : List Judgment :=
  optToList (advanced_analysis use_advanced tres) ++
    optToList (vader_analysis compound) ++
    [domain_specific_analysis text, textblob_analysis pol]

/-- The `methods_used` list built alongside `results` in
`ensemble_analysis`. -/
def collectMethods (use_advanced : Bool) (tres : Option (String × ℚ))
    (compound : Option ℚ) : List String :=
  (if (advanced_analysis use_advanced tres).isSome then ["BERT/RoBERTa"] else []) ++
    (if (vader_analysis compound).isSome then ["VADER"] else []) ++
    ["Domain-Specific", "TextBlob"]

/-- The raw weight schedule chosen at `ensemble_analysis` lines 218-223:
`[0.5, 0.25, 0.15, 0.1]` when `self.use_advanced and len(results) >= 1`,
else `[0.4, 0.3, 0.3]`. -/
def weightSchedule (use_advanced : Bool) (n : ℕ) : List ℚ :=
  if use_advanced ∧ 1 ≤ n then [1/2, 1/4, 3/20, 1/10] else [2/5, 3/10, 3/10]

/-- Line 227: `weights = [w / sum(weights) for w in weights]`. -/
def normalizeWeights (w : List ℚ) : List ℚ :=
  w.map (fun x => x / w.sum)

/-- Lines 218-227: truncate the schedule to the number of judgments
(`weights[:len(results)]`) and renormalize. -/
def ensembleWeights (use_advanced : Bool) (n : ℕ) : List ℚ :=
  normalizeWeights ((weightSchedule use_advanced n).take n)

/-- Lines 230-236: the accumulated score of one label, summing
`weight * confidence` over the judgments carrying that label. -/
def voteScore (pairs : List (Judgment × ℚ)) (l : Label) : ℚ :=
  (pairs.map (fun p => if p.1.label = l then p.2 * p.1.confidence else 0)).sum

/-- Line 239: `max(sentiment_scores.items(), key=lambda x: x[1])[0]` over
the dict `{'Positive': sp, 'Negative': sn, 'Neutral': sneu}`.  Python's
`max` scans in insertion order and replaces the running best only on a
strictly greater score, so the first label in the order
Positive, Negative, Neutral wins ties. -/
def maxLabel (sp sn sneu : ℚ) : Label :=
  if sp < sn then (if sn < sneu then Label.Neutral else Label.Negative)
  else (if sp < sneu then Label.Neutral else Label.Positive)

/-- Dictionary lookup `sentiment_scores[final_sentiment]` (line 240). -/
def pickScore (l : Label) (sp sn sneu : ℚ) : ℚ :=
  match l with
  | Label.Positive => sp
  | Label.Negative => sn
  | Label.Neutral => sneu

/-- Python's `'+'.join(methods_used)` (line 242). -/
def joinPlus : List String → String
  | [] => ""
  | [s] => s
  | s :: t => s ++ "+" ++ joinPlus t

/-- `ensemble_analysis` lines 213-244: the decision taken once the
judgment list has been collected.  An empty list short-circuits to the
fallback; otherwise the truncated, renormalized weights are zipped with
the judgments, scores are accumulated per label, and the maximal label
wins with its score clamped to at most `1.0`. -/
def ensemble_decide (results : List Judgment) (use_advanced : Bool)
    (methods_used : List String) : Label × ℚ × String :=
  if results = [] then (Label.Neutral, 1/2, "fallback")
  else
    let pairs := results.zip (ensembleWeights use_advanced results.length)
    let sp := voteScore pairs Label.Positive
    let sn := voteScore pairs Label.Negative
    let sneu := voteScore pairs Label.Neutral
    let final := maxLabel sp sn sneu
    (final, min (pickScore final sp sn sneu) 1,
      "Ensemble(" ++ joinPlus methods_used ++ ")")

/-- `AdvancedSentimentAnalyzer.ensemble_analysis` (lines 182-244).
`if not text or len(text.strip()) < 3` short-circuits to the empty
result; otherwise the judgments are collected and the weighted vote is
taken. -/
def ensemble_analysis (text : String) (use_advanced : Bool)
    (tres : Option (String × ℚ)) (compound : Option ℚ) (pol : Option ℚ) :
    Label × ℚ × String :=
  if text = "" ∨ (pyStrip text).length < 3 then (Label.Neutral, 1/2, "empty")
  else
    ensemble_decide (collectResults use_advanced tres compound text pol)
      use_advanced (collectMethods use_advanced tres compound)

/-- `MultiModelSentimentAnalyzer.analyze_text` (lines 283-291): with no
loaded model return the `no_model` result; with a short text return the
`empty` result; otherwise delegate to the selected model's analyzer
closure. -/
def analyze_text (analyzer : Option (String → Label × ℚ × String))
    (text : String) : Label × ℚ × String :=
  match analyzer with
  | none => (Label.Neutral, 1/2, "no_model")
  | some f =>
    if text = "" ∨ (pyStrip text).length < 3 then (Label.Neutral, 1/2, "empty")
    else f text

/-- Python's banker's rounding (`round`) on an exact rational. -/
def pyRoundHalfEven (q : ℚ) : ℤ :=
  let f := Int.floor q
  if q - f < 1/2 then f
  else if 1/2 < q - f then f + 1
  else if f % 2 = 0 then f else f + 1

/-- `round(confidence, 3)` at line 313 of `multi_model_sentiment.py`. -/
def round3 (q : ℚ) : ℚ :=
  (pyRoundHalfEven (q * 1000) : ℚ) / 1000

/-- One row of the result list built by
`MultiModelSentimentAnalyzer.batch_analyze`. -/
structure BatchRecord where
  sentiment : Label
  confidence : ℚ
  method : String
deriving DecidableEq, Repr

/-- The dict appended at lines 310-314 of `multi_model_sentiment.py`. -/
def toBatchRecord (r : Label × ℚ × String) : BatchRecord :=
  ⟨r.1, round3 r.2.1, r.2.2⟩

/-- `MultiModelSentimentAnalyzer.batch_analyze` (lines 293-321): iterate
over the texts in order, appending one record per text (progress printing
has no effect on the result). -/
def batch_analyze (analyzer : Option (String → Label × ℚ × String))
    (texts : List String) : List BatchRecord :=
  texts.map (fun t => toBatchRecord (analyze_text analyzer t))

/-- `SentimentAnalyzer.analyze_text` of `sentiment_gui.py` (lines 32-67):
the model-specific classification is an external call (TextBlob, VADER,
or the randomized demo stub); `classify` returns its triple, with `none`
modelling a raised exception, which the `except` clause converts to
`('Neutral', 0.0, 0.5)`. -/
def gui_analyze_text (classify : String → Option (Label × ℚ × ℚ))
    (text : String) : Label × ℚ × ℚ :=
  match classify text with
  | some r => r
  | none => (Label.Neutral, 0, 1/2)

/-- One row of the result list built by
`SentimentAnalyzer.analyze_batch`. -/
structure GuiRecord where
  sentiment : Label
  score : ℚ
  confidence : ℚ
deriving DecidableEq, Repr

/-- The dict appended at lines 79-83 of `sentiment_gui.py`. -/
def toGuiRecord (r : Label × ℚ × ℚ) : GuiRecord :=
  ⟨r.1, r.2.1, r.2.2⟩

/-- `SentimentAnalyzer.analyze_batch` of `sentiment_gui.py` (lines
69-88): iterate over the texts in order, appending one record per text
(the progress callback and the delay have no effect on the result). -/
def gui_analyze_batch (classify : String → Option (Label × ℚ × ℚ))
    (texts : List String) : List GuiRecord :=
  texts.map (fun t => toGuiRecord (gui_analyze_text classify t))

/-! ### Helper lemmas -/

theorem sum_map_div (l : List ℚ) (s : ℚ) :
    (l.map (fun x => x / s)).sum = l.sum / s := by
  induction l with
  | nil => simp
  | cons a t ih => simp [ih, add_div]

theorem normalizeWeights_sum (w : List ℚ) (h : w.sum ≠ 0) :
    (normalizeWeights w).sum = 1 := by
  unfold normalizeWeights
  rw [sum_map_div]
  exact div_self h

theorem normalizeWeights_nonneg (w : List ℚ) (h : ∀ x ∈ w, 0 ≤ x) :
    ∀ y ∈ normalizeWeights w, 0 ≤ y := by
  intro y hy
  obtain ⟨x, hx, rfl⟩ := List.mem_map.mp hy
  exact div_nonneg (h x hx) (List.sum_nonneg h)

theorem weightSchedule_pos (ua : Bool) (n : ℕ) :
    ∀ x ∈ weightSchedule ua n, 0 < x := by
  intro x hx
  unfold weightSchedule at hx
  split at hx
  · simp at hx
    rcases hx with rfl | rfl | rfl | rfl <;> norm_num
  · simp at hx
    rcases hx with rfl | rfl | rfl <;> norm_num

theorem take_sum_pos (a : ℚ) (t : List ℚ) (n : ℕ) (ha : 0 < a)
    (ht : ∀ x ∈ t, 0 ≤ x) (hn : 1 ≤ n) : 0 < ((a :: t).take n).sum := by
  obtain ⟨m, rfl⟩ : ∃ m, n = m + 1 := ⟨n - 1, by omega⟩
  rw [List.take_succ_cons, List.sum_cons]
  have h2 : 0 ≤ (t.take m).sum :=
    List.sum_nonneg (fun x hx => ht x (List.take_subset m t hx))
  linarith

theorem ensembleWeights_sum_one (ua : Bool) (n : ℕ) (hn : 1 ≤ n) :
    (ensembleWeights ua n).sum = 1 := by
  unfold ensembleWeights
  apply normalizeWeights_sum
  have hpos := weightSchedule_pos ua n
  unfold weightSchedule at hpos ⊢
  split
  · apply ne_of_gt
    apply take_sum_pos _ _ _ (by norm_num) _ hn
    intro x hx
    simp at hx
    rcases hx with rfl | rfl | rfl
    all_goals norm_num
  · apply ne_of_gt
    apply take_sum_pos _ _ _ (by norm_num) _ hn
    intro x hx
    simp at hx
    rcases hx with rfl | rfl
    all_goals norm_num

theorem ensembleWeights_nonneg (ua : Bool) (n : ℕ) :
    ∀ w ∈ ensembleWeights ua n, 0 ≤ w := by
  unfold ensembleWeights
  apply normalizeWeights_nonneg
  intro x hx
  exact le_of_lt (weightSchedule_pos ua n x (List.take_subset n _ hx))

theorem voteScore_nonneg (pairs : List (Judgment × ℚ))
    (h : ∀ p ∈ pairs, 0 ≤ p.1.confidence ∧ 0 ≤ p.2) (l : Label) :
    0 ≤ voteScore pairs l := by
  unfold voteScore
  apply List.sum_nonneg
  intro x hx
  obtain ⟨p, hp, rfl⟩ := List.mem_map.mp hx
  by_cases hl : p.1.label = l
  · rw [if_pos hl]
    exact mul_nonneg (h p hp).2 (h p hp).1
  · rw [if_neg hl]

theorem pickScore_eq_voteScore (pairs : List (Judgment × ℚ)) (l : Label) :
    pickScore l (voteScore pairs Label.Positive) (voteScore pairs Label.Negative)
      (voteScore pairs Label.Neutral) = voteScore pairs l := by
  cases l <;> rfl

theorem maxLabel_ge (sp sn sneu : ℚ) :
    ∀ l : Label, pickScore l sp sn sneu ≤
      pickScore (maxLabel sp sn sneu) sp sn sneu := by
  intro l
  unfold maxLabel
  split_ifs with h1 h2 h3 <;> cases l <;> simp [pickScore] <;> linarith

theorem domain_conf_nonneg (text : String) :
    0 ≤ (domain_specific_analysis text).confidence := by
  unfold domain_specific_analysis
  split_ifs <;> simp <;> positivity

theorem textblob_conf_nonneg (pol : Option ℚ) :
    0 ≤ (textblob_analysis pol).confidence := by
  cases pol with
  | none => norm_num [textblob_analysis]
  | some p =>
    simp only [textblob_analysis]
    split_ifs with h1 h2
    all_goals simp
    all_goals linarith

theorem mem_optToList (o : Option Judgment) (j : Judgment) :
    j ∈ optToList o ↔ o = some j := by
  cases o <;> simp [optToList, eq_comm]

theorem advanced_conf_nonneg (ua : Bool) (tres : Option (String × ℚ)) (j : Judgment)
    (ht : tres.elim True (fun r => 0 ≤ r.2 ∧ r.2 ≤ 1))
    (h : advanced_analysis ua tres = some j) : 0 ≤ j.confidence := by
  cases ua with
  | false => simp [advanced_analysis] at h
  | true =>
    cases tres with
    | none => simp [advanced_analysis] at h
    | some r =>
      obtain ⟨lab, score⟩ := r
      simp only [Option.elim] at ht
      simp only [advanced_analysis, Bool.true_eq_false, if_false] at h
      split_ifs at h <;> simp only [Option.some.injEq] at h <;>
        subst h <;> exact ht.1

theorem vader_conf_nonneg (compound : Option ℚ) (j : Judgment)
    (hv : compound.elim True (fun c => -1 ≤ c ∧ c ≤ 1))
    (h : vader_analysis compound = some j) : 0 ≤ j.confidence := by
  cases compound with
  | none => simp [vader_analysis] at h
  | some c =>
    simp only [Option.elim] at hv
    have habs : |c| ≤ 1 := abs_le.mpr ⟨hv.1, hv.2⟩
    simp only [vader_analysis] at h
    split_ifs at h <;> simp only [Option.some.injEq] at h <;> subst h
    · exact abs_nonneg c
    · exact abs_nonneg c
    · simp only
      linarith

theorem collect_conf_nonneg (ua : Bool) (tres : Option (String × ℚ))
    (compound : Option ℚ) (text : String) (pol : Option ℚ)
    (ht : tres.elim True (fun r => 0 ≤ r.2 ∧ r.2 ≤ 1))
    (hv : compound.elim True (fun c => -1 ≤ c ∧ c ≤ 1)) :
    ∀ j ∈ collectResults ua tres compound text pol, 0 ≤ j.confidence := by
  intro j hj
  unfold collectResults at hj
  simp only [List.mem_append, mem_optToList, List.mem_cons,
    List.not_mem_nil, or_false] at hj
  rcases hj with (h | h) | (rfl | rfl)
  · exact advanced_conf_nonneg ua tres j ht h
  · exact vader_conf_nonneg compound j hv h
  · exact domain_conf_nonneg text
  · exact textblob_conf_nonneg pol

theorem ensemble_decide_conf_bounds (results : List Judgment) (ua : Bool)
    (methods : List String) (hconf : ∀ j ∈ results, 0 ≤ j.confidence) :
    0 ≤ (ensemble_decide results ua methods).2.1 ∧
      (ensemble_decide results ua methods).2.1 ≤ 1 := by
  unfold ensemble_decide
  split
  · norm_num
  · simp only
    have hnn : ∀ l, 0 ≤ voteScore
        (results.zip (ensembleWeights ua results.length)) l := by
      intro l
      apply voteScore_nonneg
      intro p hp
      obtain ⟨j, w⟩ := p
      obtain ⟨hj, hw⟩ := List.of_mem_zip hp
      exact ⟨hconf j hj, ensembleWeights_nonneg ua results.length w hw⟩
    constructor
    · apply le_min _ (by norm_num)
      rw [pickScore_eq_voteScore]
      exact hnn _
    · exact min_le_right _ _

theorem voteScore_eq_filter (pairs : List (Judgment × ℚ)) (l : Label) :
    voteScore pairs l =
      ((pairs.filter (fun p => p.1.label == l)).map
        (fun p => p.2 * p.1.confidence)).sum := by
  induction pairs with
  | nil => rfl
  | cons p t ih =>
    unfold voteScore at ih ⊢
    rw [List.map_cons, List.sum_cons, List.filter_cons]
    by_cases h : p.1.label = l
    · have hb : (p.1.label == l) = true := beq_iff_eq.mpr h
      rw [if_pos h, hb, if_pos rfl, List.map_cons, List.sum_cons, ih]
    · have hb : (p.1.label == l) = false := by simp [h]
      rw [if_neg h, hb]
      simp only [Bool.false_eq_true, if_false]
      rw [zero_add, ih]

/-! ### Claim theorems -/

/-- C1: for every input text and every outcome of the upstream
classifiers (the transformer score obeying its softmax contract
`0 <= score <= 1` and the VADER compound its documented range
`[-1,1]`; the TextBlob polarity needs no assumption),
`ensemble_analysis` returns a label that is Positive, Negative or
Neutral and a confidence in the closed interval `[0,1]`; being a total
function of its inputs, it never returns a malformed or missing
result. -/
theorem ensemble_analysis_wellformed (text : String) (ua : Bool)
    (tres : Option (String × ℚ)) (compound : Option ℚ) (pol : Option ℚ)
    (ht : tres.elim True (fun r => 0 ≤ r.2 ∧ r.2 ≤ 1))
    (hv : compound.elim True (fun c => -1 ≤ c ∧ c ≤ 1)) :
    ((ensemble_analysis text ua tres compound pol).1 = Label.Positive ∨
     (ensemble_analysis text ua tres compound pol).1 = Label.Negative ∨
     (ensemble_analysis text ua tres compound pol).1 = Label.Neutral) ∧
    0 ≤ (ensemble_analysis text ua tres compound pol).2.1 ∧
    (ensemble_analysis text ua tres compound pol).2.1 ≤ 1 := by
  constructor
  · cases h : (ensemble_analysis text ua tres compound pol).1 <;> simp
  · unfold ensemble_analysis
    split
    · norm_num
    · exact ensemble_decide_conf_bounds _ _ _
        (collect_conf_nonneg ua tres compound text pol ht hv)

/-- Witness for C1 at a concrete input. -/
theorem ensemble_analysis_wellformed_witness :
    0 ≤ (ensemble_analysis "abcd" true (some ("POSITIVE", 9/10))
          (some (1/10)) (some (1/5))).2.1 ∧
    (ensemble_analysis "abcd" true (some ("POSITIVE", 9/10))
          (some (1/10)) (some (1/5))).2.1 ≤ 1 :=
  (ensemble_analysis_wellformed "abcd" true (some ("POSITIVE", 9/10))
    (some (1/10)) (some (1/5))
    (by simp [Option.elim]; norm_num)
    (by simp [Option.elim]; norm_num)).2

/-- C3: for every non-empty judgment list, the score accumulated for a
label is the sum of `weight * confidence` over the judgments carrying
that label, the chosen label's accumulated score is maximal, and the
returned confidence is the winning label's score clamped to at most
`1.0`. -/
theorem ensemble_decide_argmax (results : List Judgment) (ua : Bool)
    (methods : List String) (h : results ≠ []) :
    (∀ l, voteScore (results.zip (ensembleWeights ua results.length)) l =
       (((results.zip (ensembleWeights ua results.length)).filter
           (fun p => p.1.label == l)).map
         (fun p => p.2 * p.1.confidence)).sum) ∧
    (∀ l, voteScore (results.zip (ensembleWeights ua results.length)) l ≤
       voteScore (results.zip (ensembleWeights ua results.length))
         (ensemble_decide results ua methods).1) ∧
    (ensemble_decide results ua methods).2.1 =
      min (voteScore (results.zip (ensembleWeights ua results.length))
             (ensemble_decide results ua methods).1) 1 := by
  refine ⟨fun l => voteScore_eq_filter _ l, ?_, ?_⟩
  · intro l
    unfold ensemble_decide
    rw [if_neg h]
    simp only
    have hmax := maxLabel_ge
      (voteScore (results.zip (ensembleWeights ua results.length)) Label.Positive)
      (voteScore (results.zip (ensembleWeights ua results.length)) Label.Negative)
      (voteScore (results.zip (ensembleWeights ua results.length)) Label.Neutral) l
    rw [pickScore_eq_voteScore, pickScore_eq_voteScore] at hmax
    exact hmax
  · unfold ensemble_decide
    rw [if_neg h]
    simp only
    rw [pickScore_eq_voteScore]

/-- Witness for C3 at a concrete one-judgment list. -/
theorem ensemble_decide_argmax_witness :
    (ensemble_decide [⟨Label.Positive, 4/5, "A"⟩] false ["TextBlob"]).2.1 =
      min (voteScore ([(⟨Label.Positive, 4/5, "A"⟩ : Judgment)].zip
             (ensembleWeights false [(⟨Label.Positive, 4/5, "A"⟩ : Judgment)].length))
           (ensemble_decide [⟨Label.Positive, 4/5, "A"⟩] false ["TextBlob"]).1) 1 :=
  (ensemble_decide_argmax [⟨Label.Positive, 4/5, "A"⟩] false ["TextBlob"]
    (List.cons_ne_nil _ _)).2.2

/-- C4: for every non-empty judgment list, the weight schedule is
truncated to the number of judgments and renormalized, so the weights
actually used sum to exactly `1` (hence certainly within the `1e-9`
floating tolerance). -/
theorem ensemble_weights_sum_one (results : List Judgment) (ua : Bool)
    (h : results ≠ []) :
    (ensembleWeights ua results.length).sum = 1 ∧
    |(ensembleWeights ua results.length).sum - 1| ≤ 1 / 1000000000 := by
  have h1 : (ensembleWeights ua results.length).sum = 1 :=
    ensembleWeights_sum_one ua results.length
      (Nat.one_le_iff_ne_zero.mpr (fun hn => h (List.eq_nil_of_length_eq_zero hn)))
  refine ⟨h1, ?_⟩
  rw [h1]
  norm_num

/-- Witness for C4 at a concrete two-judgment list. -/
theorem ensemble_weights_sum_one_witness :
    (ensembleWeights true [(⟨Label.Positive, 4/5, "A"⟩ : Judgment),
        ⟨Label.Negative, 4/5, "B"⟩].length).sum = 1 :=
  (ensemble_weights_sum_one [⟨Label.Positive, 4/5, "A"⟩, ⟨Label.Negative, 4/5, "B"⟩]
    true (List.cons_ne_nil _ _)).1

/-- C5: the aggregation is a pure function, so identical inputs give
identical outputs; exact ties between accumulated scores are broken by
the fixed insertion order Positive, Negative, Neutral of the score
dictionary (Python's `max` keeps the first maximal item), so an exact
Positive/Negative tie resolves to Positive, a Negative/Neutral tie with
both above Positive resolves to Negative, a three-way tie resolves to
Positive, and on the spec's example (Positive 0.8 and Negative 0.8,
weights 0.5 each) both scores are 0.4 and Positive wins. -/
theorem ensemble_analysis_deterministic_tiebreak :
    (∀ (text : String) (ua : Bool) (tres : Option (String × ℚ))
       (compound pol : Option ℚ),
       ensemble_analysis text ua tres compound pol =
         ensemble_analysis text ua tres compound pol) ∧
    (∀ sp sneu : ℚ, sneu ≤ sp → maxLabel sp sp sneu = Label.Positive) ∧
    (∀ sp sn : ℚ, sp < sn → maxLabel sp sn sn = Label.Negative) ∧
    (∀ s : ℚ, maxLabel s s s = Label.Positive) ∧
    (voteScore [(⟨Label.Positive, 4/5, "A"⟩, 1/2),
        (⟨Label.Negative, 4/5, "B"⟩, 1/2)] Label.Positive = 2/5 ∧
     voteScore [(⟨Label.Positive, 4/5, "A"⟩, 1/2),
        (⟨Label.Negative, 4/5, "B"⟩, 1/2)] Label.Negative = 2/5 ∧
     maxLabel (voteScore [(⟨Label.Positive, 4/5, "A"⟩, 1/2),
          (⟨Label.Negative, 4/5, "B"⟩, 1/2)] Label.Positive)
       (voteScore [(⟨Label.Positive, 4/5, "A"⟩, 1/2),
          (⟨Label.Negative, 4/5, "B"⟩, 1/2)] Label.Negative)
       (voteScore [(⟨Label.Positive, 4/5, "A"⟩, 1/2),
          (⟨Label.Negative, 4/5, "B"⟩, 1/2)] Label.Neutral) = Label.Positive) := by
  refine ⟨fun _ _ _ _ _ => rfl, ?_, ?_, ?_, ?_⟩
  · intro sp sneu hle
    unfold maxLabel
    rw [if_neg (lt_irrefl sp), if_neg (not_lt.mpr hle)]
  · intro sp sn hlt
    unfold maxLabel
    rw [if_pos hlt, if_neg (lt_irrefl sn)]
  · intro s
    unfold maxLabel
    rw [if_neg (lt_irrefl s), if_neg (lt_irrefl s)]
  · have h1 : voteScore [(⟨Label.Positive, 4/5, "A"⟩, 1/2),
        (⟨Label.Negative, 4/5, "B"⟩, 1/2)] Label.Positive = 2/5 := by
      simp [voteScore]
      norm_num
    have h2 : voteScore [(⟨Label.Positive, 4/5, "A"⟩, 1/2),
        (⟨Label.Negative, 4/5, "B"⟩, 1/2)] Label.Negative = 2/5 := by
      simp [voteScore]
      norm_num
    have h3 : voteScore [(⟨Label.Positive, 4/5, "A"⟩, 1/2),
        (⟨Label.Negative, 4/5, "B"⟩, 1/2)] Label.Neutral = 0 := by
      simp [voteScore]
    refine ⟨h1, h2, ?_⟩
    rw [h1, h2, h3]
    unfold maxLabel
    rw [if_neg (lt_irrefl _), if_neg (by norm_num)]

/-- Witness for C5: an exact tie at score 1 against 1 with Neutral at 0
resolves to Positive. -/
theorem ensemble_analysis_deterministic_tiebreak_witness :
    maxLabel 1 1 0 = Label.Positive :=
  ensemble_analysis_deterministic_tiebreak.2.1 1 0 (by norm_num)

/-- C6: any text that is empty or shorter than 3 characters after
stripping whitespace short-circuits to `('Neutral', 0.5, 'empty')`:
`ensemble_analysis` returns it for every possible classifier outcome
(so no judgment source is consulted), and `analyze_text` of the
multi-model analyzer returns it for every loaded analyzer closure
without invoking the closure. -/
theorem short_text_returns_empty (text : String) (ua : Bool)
    (tres : Option (String × ℚ)) (compound pol : Option ℚ)
    (f : String → Label × ℚ × String)
    (hshort : text = "" ∨ (pyStrip text).length < 3) :
    ensemble_analysis text ua tres compound pol =
      (Label.Neutral, 1/2, "empty") ∧
    analyze_text (some f) text = (Label.Neutral, 1/2, "empty") := by
  constructor
  · unfold ensemble_analysis
    rw [if_pos hshort]
  · show (if text = "" ∨ (pyStrip text).length < 3
        then ((Label.Neutral, 1/2, "empty") : Label × ℚ × String)
        else f text) = (Label.Neutral, 1/2, "empty")
    rw [if_pos hshort]

/-- Witness for C6 at the empty-ish inputs named by the spec. -/
theorem short_text_returns_empty_witness :
    ensemble_analysis "ab" true (some ("POSITIVE", 9/10)) (some 1) (some 1) =
      (Label.Neutral, 1/2, "empty") ∧
    ensemble_analysis "  " false none none none =
      (Label.Neutral, 1/2, "empty") ∧
    ensemble_analysis "" false none none none =
      (Label.Neutral, 1/2, "empty") :=
  ⟨(short_text_returns_empty "ab" true (some ("POSITIVE", 9/10)) (some 1) (some 1)
      (fun _ => (Label.Neutral, 0, "")) (by decide)).1,
   (short_text_returns_empty "  " false none none none
      (fun _ => (Label.Neutral, 0, "")) (by decide)).1,
   (short_text_returns_empty "" false none none none
      (fun _ => (Label.Neutral, 0, "")) (by decide)).1⟩

/-- C7: the decision step of `ensemble_analysis` maps an empty judgment
list to the fallback result `('Neutral', 0.5, 'fallback')` for either
setting of `use_advanced` and any method list; no error is raised. -/
theorem empty_judgments_fallback (ua : Bool) (methods : List String) :
    ensemble_decide [] ua methods = (Label.Neutral, 1/2, "fallback") := by
  rfl

/-- Witness for C7 at concrete arguments. -/
theorem empty_judgments_fallback_witness :
    ensemble_decide [] true ["VADER"] = (Label.Neutral, 1/2, "fallback") :=
  empty_judgments_fallback true ["VADER"]

/-- C8: when the VADER source fails (its `polarity_scores` call raises,
so `vader_analysis` yields `None`), the collected judgment list simply
omits the VADER entry, the ensemble proceeds over the remaining
judgments with the weight schedule renormalized over them (summing to
`1`), and the output is still well-formed, with confidence in `[0,1]`;
nothing aborts the aggregation. -/
theorem failed_source_excluded (text : String) (ua : Bool)
    (tres : Option (String × ℚ)) (pol : Option ℚ)
    (hlong : ¬(text = "" ∨ (pyStrip text).length < 3))
    (ht : tres.elim True (fun r => 0 ≤ r.2 ∧ r.2 ≤ 1)) :
    collectResults ua tres none text pol =
      optToList (advanced_analysis ua tres) ++
        [domain_specific_analysis text, textblob_analysis pol] ∧
    ensemble_analysis text ua tres none pol =
      ensemble_decide
        (optToList (advanced_analysis ua tres) ++
          [domain_specific_analysis text, textblob_analysis pol])
        ua (collectMethods ua tres none) ∧
    (ensembleWeights ua (collectResults ua tres none text pol).length).sum = 1 ∧
    0 ≤ (ensemble_analysis text ua tres none pol).2.1 ∧
    (ensemble_analysis text ua tres none pol).2.1 ≤ 1 := by
  have hcoll : collectResults ua tres none text pol =
      optToList (advanced_analysis ua tres) ++
        [domain_specific_analysis text, textblob_analysis pol] := by
    unfold collectResults vader_analysis optToList
    simp
  have hens : ensemble_analysis text ua tres none pol =
      ensemble_decide
        (optToList (advanced_analysis ua tres) ++
          [domain_specific_analysis text, textblob_analysis pol])
        ua (collectMethods ua tres none) := by
    unfold ensemble_analysis
    rw [if_neg hlong, hcoll]
  refine ⟨hcoll, hens, ?_, ?_⟩
  · apply ensembleWeights_sum_one
    rw [hcoll]
    simp [optToList]
  · rw [hens, ← hcoll]
    exact ensemble_decide_conf_bounds _ _ _
      (collect_conf_nonneg ua tres none text pol ht trivial)

/-- Witness for C8 at a concrete input with a failed VADER source. -/
theorem failed_source_excluded_witness :
    0 ≤ (ensemble_analysis "abcd" true (some ("POSITIVE", 9/10))
          none (some 0)).2.1 ∧
    (ensemble_analysis "abcd" true (some ("POSITIVE", 9/10))
          none (some 0)).2.1 ≤ 1 :=
  (failed_source_excluded "abcd" true (some ("POSITIVE", 9/10)) (some 0)
    (by decide) (by simp [Option.elim]; norm_num)).2.2.2

/-- C9: for any non-short text the collected judgment list has at least
two entries (the domain judgment and the TextBlob judgment are appended
unconditionally, TextBlob yielding `('Neutral', 0.5, 'textblob')` even
when its library call raises), so the list is never empty and the
`'fallback'` branch of the decision is unreachable: the returned
provenance is never the string `"fallback"`. -/
theorem judgments_never_empty (text : String) (ua : Bool)
    (tres : Option (String × ℚ)) (compound pol : Option ℚ)
    (hlong : ¬(text = "" ∨ (pyStrip text).length < 3)) :
    2 ≤ (collectResults ua tres compound text pol).length ∧
    collectResults ua tres compound text pol ≠ [] ∧
    textblob_analysis none = ⟨Label.Neutral, 1/2, "textblob"⟩ ∧
    (ensemble_analysis text ua tres compound pol).2.2 ≠ "fallback" := by
  have hlen : 2 ≤ (collectResults ua tres compound text pol).length := by
    unfold collectResults
    simp
    omega
  refine ⟨hlen, ?_, rfl, ?_⟩
  · intro hnil
    rw [hnil] at hlen
    simp at hlen
  · unfold ensemble_analysis
    rw [if_neg hlong]
    unfold ensemble_decide
    rw [if_neg (fun hnil => by rw [hnil] at hlen; simp at hlen)]
    simp only
    intro hstr
    have hl := congrArg String.length hstr
    rw [String.length_append, String.length_append] at hl
    have h9 : ("Ensemble(" : String).length = 9 := rfl
    have h1 : (")" : String).length = 1 := rfl
    have h8 : ("fallback" : String).length = 8 := rfl
    omega

/-- Witness for C9 at a concrete non-short input. -/
theorem judgments_never_empty_witness :
    2 ≤ (collectResults false none none "abcd" none).length :=
  (judgments_never_empty "abcd" false none none none (by decide)).1

/-- C10: both batch routines return one record per input text, in the
same order: the output list has the same length as the input, and the
record at every position is obtained from the per-text analysis of the
text at that same position. -/
theorem batch_preserves_positions
    (analyzer : Option (String → Label × ℚ × String))
    (classify : String → Option (Label × ℚ × ℚ)) (texts : List String) :
    (batch_analyze analyzer texts).length = texts.length ∧
    (∀ i : ℕ, (batch_analyze analyzer texts)[i]? =
       (texts[i]?).map (fun t => toBatchRecord (analyze_text analyzer t))) ∧
    (gui_analyze_batch classify texts).length = texts.length ∧
    (∀ i : ℕ, (gui_analyze_batch classify texts)[i]? =
       (texts[i]?).map (fun t => toGuiRecord (gui_analyze_text classify t))) := by
  refine ⟨?_, ?_, ?_, ?_⟩
  · exact List.length_map texts _
  · intro i
    unfold batch_analyze
    rw [List.getElem?_map]
  · exact List.length_map texts _
  · intro i
    unfold gui_analyze_batch
    rw [List.getElem?_map]

/-- Witness for C10 on a concrete text list. -/
theorem batch_preserves_positions_witness :
    (batch_analyze none ["good service", "bad service"]).length =
      (["good service", "bad service"] : List String).length :=
  (batch_preserves_positions none (fun _ => none)
    ["good service", "bad service"]).1

/-- C2 counterexample: with `use_advanced` configured but the
transformer call failing, the collected judgments contain no
transformer entry, yet the weights used are the renormalized truncation
of the `0.5`-headed schedule, not the alternate `[0.4, 0.3, 0.3]`
schedule the claim requires in the absence of a high-priority
judgment. -/
theorem schedule_not_presence_triggered :
    collectResults true none (some (1/2)) "abcd" (some 0) =
      [⟨Label.Positive, 1/2, "vader"⟩, ⟨Label.Neutral, 1/2, "domain"⟩,
       ⟨Label.Neutral, 0, "textblob"⟩] ∧
    ensembleWeights true
        (collectResults true none (some (1/2)) "abcd" (some 0)).length =
      [5/9, 5/18, 1/6] ∧
    ensembleWeights true
        (collectResults true none (some (1/2)) "abcd" (some 0)).length ≠
      normalizeWeights (([2/5, 3/10, 3/10] : List ℚ).take
        (collectResults true none (some (1/2)) "abcd" (some 0)).length) := by
  have hdompos : domainPosCount "abcd" = 0 := by decide
  have hdomneg : domainNegCount "abcd" = 0 := by decide
  have hdom : domain_specific_analysis "abcd" = ⟨Label.Neutral, 1/2, "domain"⟩ := by
    unfold domain_specific_analysis
    rw [hdompos, hdomneg]
    norm_num
  have htb : textblob_analysis (some 0) = ⟨Label.Neutral, 0, "textblob"⟩ := by
    simp only [textblob_analysis]
    rw [if_neg (by norm_num), if_neg (by norm_num)]
    norm_num
  have hvad : vader_analysis (some (1/2)) =
      some ⟨Label.Positive, 1/2, "vader"⟩ := by
    simp only [vader_analysis]
    rw [if_pos (by norm_num)]
    norm_num
  have hadv : advanced_analysis true (none : Option (String × ℚ)) = none := by
    simp [advanced_analysis]
  have hcoll : collectResults true none (some (1/2)) "abcd" (some 0) =
      [⟨Label.Positive, 1/2, "vader"⟩, ⟨Label.Neutral, 1/2, "domain"⟩,
       ⟨Label.Neutral, 0, "textblob"⟩] := by
    unfold collectResults
    rw [hvad, hdom, htb, hadv]
    simp [optToList]
  have hlen3 : (collectResults true none (some (1/2)) "abcd" (some 0)).length = 3 := by
    rw [hcoll]
    rfl
  have htake4 : ([1/2, 1/4, 3/20, 1/10] : List ℚ).take 3 = [1/2, 1/4, 3/20] := rfl
  have htake3 : ([2/5, 3/10, 3/10] : List ℚ).take 3 = [2/5, 3/10, 3/10] := rfl
  have hw : ensembleWeights true
      (collectResults true none (some (1/2)) "abcd" (some 0)).length =
      [5/9, 5/18, 1/6] := by
    rw [hlen3]
    unfold ensembleWeights weightSchedule
    rw [if_pos ⟨rfl, by norm_num⟩, htake4]
    unfold normalizeWeights
    simp only [List.map_cons, List.map_nil, List.sum_cons, List.sum_nil]
    norm_num
  refine ⟨hcoll, hw, ?_⟩
  rw [hw, hlen3, htake3]
  unfold normalizeWeights
  simp only [List.map_cons, List.map_nil, List.sum_cons, List.sum_nil]
  norm_num

/-- C2 (amended): the `0.5`-headed schedule `[0.5, 0.25, 0.15, 0.1]`
(truncated and renormalized) is selected whenever the analyzer's
`use_advanced` flag is set — for every transformer outcome `tres`,
present or failed, so independently of whether a transformer judgment
is actually in the collected results; when one is present the flag is
necessarily set and the judgment is first in the list (and so receives
the renormalized `0.5` share); and when `use_advanced` is unset the
alternate schedule `[0.4, 0.3, 0.3]` is used, truncated to the number
of judgments and renormalized. -/
theorem schedule_selection (ua : Bool) (tres : Option (String × ℚ))
    (compound : Option ℚ) (text : String) (pol : Option ℚ) :
    (ua = true →
       ensembleWeights ua (collectResults ua tres compound text pol).length =
         normalizeWeights (([1/2, 1/4, 3/20, 1/10] : List ℚ).take
           (collectResults ua tres compound text pol).length)) ∧
    ((advanced_analysis ua tres).isSome = true →
       ua = true ∧
       (collectResults ua tres compound text pol).head? =
         advanced_analysis ua tres) ∧
    (ua = false →
       ensembleWeights ua (collectResults ua tres compound text pol).length =
         normalizeWeights (([2/5, 3/10, 3/10] : List ℚ).take
           (collectResults ua tres compound text pol).length)) := by
  refine ⟨?_, ?_, ?_⟩
  · intro h
    subst h
    have hlen : 1 ≤ (collectResults true tres compound text pol).length := by
      unfold collectResults
      simp [optToList]
      omega
    unfold ensembleWeights weightSchedule
    rw [if_pos ⟨rfl, hlen⟩]
  · intro h
    cases ua with
    | false => simp [advanced_analysis] at h
    | true =>
      obtain ⟨j, hj⟩ := Option.isSome_iff_exists.mp h
      refine ⟨rfl, ?_⟩
      unfold collectResults
      rw [hj]
      simp [optToList]
  · intro h
    subst h
    have hcond : ¬((false : Bool) = true ∧
        1 ≤ (collectResults false tres compound text pol).length) := by
      intro hc
      exact Bool.false_ne_true hc.1
    unfold ensembleWeights weightSchedule
    rw [if_neg hcond]

/-- Witness for the amended C2 at the gap case: `use_advanced` set but
the transformer call failed, so no transformer judgment is collected,
yet the `0.5`-headed schedule is the one truncated and renormalized. -/
theorem schedule_selection_witness :
    ensembleWeights true
        (collectResults true none (some (1/2)) "abcd" (some 0)).length =
      normalizeWeights (([1/2, 1/4, 3/20, 1/10] : List ℚ).take
        (collectResults true none (some (1/2)) "abcd" (some 0)).length) :=
  (schedule_selection true none (some (1/2)) "abcd" (some 0)).1 rfl
